import Mathlib

set_option maxRecDepth 16384

/-!
Verification development for the resume-generator pipeline (src/app.py).

The program's pure core is shallowly embedded here:
  * `parse_markdown`  — the Section Extractor (three regex searches over the
    markup text), modelled on `List Char` with the exact backtracking
    semantics of Python `re.search` for the three concrete patterns;
  * `build_prompt`    — the Prompt Builder (an f-string over a dict whose
    keys are accessed with `[]`, so a missing key fails);
  * `renderTemplate`  — the Template Renderer (jinja2 `Template.render`
    with the default environment);
  * `call_deepseek_api` — the Model Client, including its tenacity retry
    decorator (`stop_after_attempt(3)`, default retry predicate, which
    retries every exception), its local validation, transport-outcome
    classification and response/content checks.
Machine strings are sequences of Unicode code points, as in Python; `len`
is code-point length, matching `String.length` / `List.length` on `.data`.
-/

-- ===============================================================
-- Character and list utilities shared by the embedding
-- ===============================================================

/-- Python whitespace as matched by `\s` in `re` (str patterns) and stripped
by `str.strip()`: the six ASCII whitespace characters plus the Unicode
whitespace code points. -/
def isPySpace (c : Char) : Bool :=
  c == ' ' || c == '\t' || c == '\n' || c == '\r' || c == '\x0b' || c == '\x0c' ||
  c == '\x1c' || c == '\x1d' || c == '\x1e' || c == '\x1f' || c == '\x85' || c == '\xa0' ||
  c == '\u1680' || (decide (0x2000 ≤ c.toNat) && decide (c.toNat ≤ 0x200a)) ||
  c == '\u2028' || c == '\u2029' || c == '\u202f' || c == '\u205f' || c == '\u3000'

/-- Python `str.strip()`: drop leading and trailing whitespace. -/
def stripChars (l : List Char) : List Char :=
  ((l.dropWhile isPySpace).reverse.dropWhile isPySpace).reverse

/-- Whether `needle` occurs as a contiguous substring of `hay`
(Python `needle in hay` for strings). -/
def subOccurs (needle : List Char) : List Char → Bool
  | [] => needle.isEmpty
  | hay@(_ :: rest) => needle.isPrefixOf hay || subOccurs needle rest

/-- First index (counting from `i`) at which `needle` occurs in `s`. -/
def findIdxAux (needle : List Char) : List Char → Nat → Option Nat
  | [], i => if needle.isEmpty then some i else none
  | s@(_ :: rest), i => if needle.isPrefixOf s then some i else findIdxAux needle rest (i + 1)

/-- First index `≥ start` at which `needle` occurs in `s` (absolute index). -/
def findFrom (needle s : List Char) (start : Nat) : Option Nat :=
  (findIdxAux needle (s.drop start) 0).map (fun j => j + start)

/-- If `lit` is a leading segment of `s`, return the remainder. -/
def stripLit : List Char → List Char → Option (List Char)
  | [], s => some s
  | _ :: _, [] => none
  | x :: xs, y :: ys => if x = y then stripLit xs ys else none

/-- Remainder of `l` after the first (leftmost) occurrence of `lit`;
`none` when `lit` does not occur. -/
def afterLit (lit : List Char) : List Char → Option (List Char)
  | [] => stripLit lit []
  | s@(_ :: rest) =>
    match stripLit lit s with
    | some t => some t
    | none => afterLit lit rest

-- ===============================================================
-- Section Extractor: parse_markdown (src/app.py lines 22-36)
-- ===============================================================

/-- Literal marker of the job-description pattern. -/
def litDesc : List Char := "*职位描述：*".data

/-- Literal marker of the hard-skills pattern. -/
def litSkills : List Char := "*硬技能：*".data

/-- Literal marker of the keywords pattern. -/
def litKeys : List Char := "*简历关键词：*".data

/-- The two characters a job-description capture must run up to:
a newline immediately followed by a star. -/
def nlStar : List Char := "\n*".data

/-- Length of the maximal leading whitespace run (the greedy extent of a
leading backslash-s-star). -/
def wsLen (s : List Char) : Nat := (s.takeWhile isPySpace).length

/-- Backtracking tail match for the job-description pattern after its
literal marker: greedy leading whitespace of length `w` (tried longest
first), then a lazy dot-star (DOTALL) up to the earliest later occurrence of
`nlStar`; the captured group is the lazily matched middle. -/
def descBacktrack (s : List Char) : Nat → Option (List Char)
  | 0 => (findFrom nlStar s 0).map (fun i => s.take i)
  | w + 1 =>
    match findFrom nlStar s (w + 1) with
    | some i => some ((s.drop (w + 1)).take (i - (w + 1)))
    | none => descBacktrack s w

/-- Match the part of the job-description pattern that follows the literal
marker, returning the captured group. -/
def matchDescTail (s : List Char) : Option (List Char) :=
  descBacktrack s (wsLen s)

/-- Leftmost `re.search`: try every start position left to right; at a
position where the literal marker is present, attempt the tail match. -/
def scanSearch (lit : List Char) (tailMatch : List Char → Option (List Char)) :
    List Char → Option (List Char)
  | [] => none
  | s@(_ :: rest) =>
    match stripLit lit s with
    | some tail =>
      match tailMatch tail with
      | some cap => some cap
      | none => scanSearch lit tailMatch rest
    | none => scanSearch lit tailMatch rest

/-- Split off one line up to and including the first newline. -/
def lineSplit : List Char → Option (List Char × List Char)
  | [] => none
  | c :: r =>
    if c = '\n' then some ([c], r)
    else
      match lineSplit r with
      | some (l, rest) => some (c :: l, rest)
      | none => none

/-- Match one bulleted line `- ...` terminated by a newline (the repeated
unit of the list patterns; dot does not match the newline). -/
def dashLine : List Char → Option (List Char × List Char)
  | '-' :: ' ' :: r =>
    match lineSplit r with
    | some (l, rest) => some ('-' :: ' ' :: l, rest)
    | none => none
  | _ => none

/-- Greedily match one or more bulleted lines. The fuel argument only makes
the recursion structural; each line consumes at least three characters, so
fuel `length + 1` never runs out on the initial call. -/
def dashLinesGo : Nat → List Char → Option (List Char × List Char)
  | 0, _ => none
  | fuel + 1, s =>
    match dashLine s with
    | none => none
    | some (l, r) =>
      match dashLinesGo fuel r with
      | some (ls, rest) => some (l ++ ls, rest)
      | none => some (l, r)

/-- One-or-more bulleted lines, greedy, returning the concatenated lines. -/
def dashLines (s : List Char) : Option (List Char × List Char) :=
  dashLinesGo (s.length + 1) s

/-- Tail match of the two bulleted-list patterns after their literal marker:
greedy leading whitespace, then one or more `- ...\n` lines (shorter
whitespace cannot help, since a shorter run would put a whitespace character
where the dash is required). The capture is the block of lines. -/
def matchSkillsTail (s : List Char) : Option (List Char) :=
  (dashLines (s.drop (wsLen s))).map (fun pr => pr.1)

/-- Python `str.split` on the two-character separator dash-space:
non-overlapping leftmost splits, empty pieces kept. -/
def splitDash : List Char → List (List Char)
  | [] => [[]]
  | '-' :: ' ' :: rest => [] :: splitDash rest
  | c :: rest =>
    match splitDash rest with
    | [] => [[c]]
    | h :: t => (c :: h) :: t

/-- One step of the list comprehension
`[s.strip() for s in xs if s.strip()]`: keep the stripped piece when it is
non-empty. -/
def stripKeep (s : List Char) : Option (List Char) :=
  if (stripChars s).isEmpty then none else some (stripChars s)

/-- The extractor's output: each field is present exactly when its pattern
matched (a Python dict with optional keys). -/
structure JobSpec where
  job_desc : Option (List Char)
  hard_skills : Option (List (List Char))
  keywords : Option (List (List Char))

/-- Search for the job-description pattern. -/
def searchDesc (md : List Char) : Option (List Char) :=
  scanSearch litDesc matchDescTail md

/-- Search for the hard-skills pattern. -/
def searchSkills (md : List Char) : Option (List Char) :=
  scanSearch litSkills matchSkillsTail md

/-- Search for the keywords pattern. -/
def searchKeywords (md : List Char) : Option (List Char) :=
  scanSearch litKeys matchSkillsTail md

/-- The Section Extractor `parse_markdown` (src/app.py lines 22-36). -/
def parse_markdown (md : List Char) : JobSpec :=
  { job_desc := (searchDesc md).map stripChars
    hard_skills := (searchSkills md).map (fun g => (splitDash g).filterMap stripKeep)
    keywords := (searchKeywords md).map (fun g => (splitDash g).filterMap stripKeep) }

-- ===============================================================
-- Prompt Builder: build_prompt (src/app.py lines 38-57)
-- ===============================================================

/-- Fixed narrative text of the prompt before the job description. -/
def promptPart0 : String :=
  "\n    你是一个资深且擅长运用AI技术的HR，具有丰富的候选人筛选经验。你已经回顾过许多候选人的简历，并总结了他们的共同优势。根据不同工种的岗位描述（JD）和筛选标准，按照麦肯锡原则（从重要到不重要）为应届硕士毕业生定制简历。这个简历需要突出软技能和硬技能，筛选过程中，必须能够体现以下关键能力和关键词。简历应当控制在一页之内。\n    请根据以下信息优化简历：\n    - 目标岗位描述："

/-- Fixed text between the job description and the joined hard skills. -/
def promptPart1 : String :=
  "\n    - 硬技能要求："

/-- Fixed text between the joined hard skills and the joined keywords. -/
def promptPart2 : String :=
  "\n    - 关键词："

/-- Fixed text between the joined keywords and the base resume. -/
def promptPart3 : String :=
  "\n    \n    原始简历内容：\n    "

/-- Fixed text after the base resume. -/
def promptPart4 : String :=
  "\n    \n    要求：\n    1. 突出硬技能和相关经验\n    2. 使用关键词优化描述\n    3. 保持简洁和专业\n    "

/-- Python `', '.join(xs)`. -/
def joinComma (xs : List (List Char)) : List Char :=
  List.intercalate (", ").data xs

/-- The Prompt Builder `build_prompt` (src/app.py lines 38-57). The source
reads `job_data['job_desc']`, `job_data['hard_skills']` and
`job_data['keywords']` with direct subscripting, so a `JobSpec` missing any
of the three fields raises a `KeyError` (modelled as `none`); when all three
are present the f-string is assembled. -/
def build_prompt (base_resume : List Char) (job_data : JobSpec) : Option (List Char) :=
  match job_data.job_desc, job_data.hard_skills, job_data.keywords with
  | some d, some hs, some kw =>
    some (promptPart0.data ++ d ++ promptPart1.data ++ joinComma hs ++
      promptPart2.data ++ joinComma kw ++ promptPart3.data ++ base_resume ++
      promptPart4.data)
  | _, _, _ => none

-- ===============================================================
-- Template Renderer: fill_latex_template (src/app.py lines 59-65)
-- ===============================================================

/-- A parsed template of the fragment exercised by `fill_latex_template`:
literal text interleaved with variable print placeholders. Reading the
template file from disk is outside the embedding; the parsed template is a
parameter. -/
inductive TmplNode where
  | lit (s : String)
  | hole (name : String)

/-- Render one node under jinja2's default environment, as invoked by
`fill_latex_template` via `Template(...).render(data)`: a variable absent
from the context resolves to jinja2's default `Undefined`, whose printed
form is the empty string (the default environment does not raise for an
undefined variable in print position). -/
def renderNode (ctx : List (String × String)) : TmplNode → String
  | .lit s => s
  | .hole n => (List.lookup n ctx).getD ("")

/-- The Template Renderer: `Template(template_text).render(data)` on a
template made of literals and print placeholders. -/
def renderTemplate (nodes : List TmplNode) (ctx : List (String × String)) : String :=
  String.join (nodes.map (renderNode ctx))

-- ===============================================================
-- Model Client: call_deepseek_api (src/app.py lines 70-173)
-- ===============================================================

/-- JSON values, the shape of a parsed response body. -/
inductive Json where
  | null
  | bool (b : Bool)
  | num (n : Int)
  | str (s : String)
  | arr (xs : List Json)
  | obj (fields : List (String × Json))

/-- Dictionary lookup (first matching key). -/
def lookupField : List (String × Json) → String → Option Json
  | [], _ => none
  | f :: rest, key => if f.fst = key then some f.snd else lookupField rest key

/-- Python `needle in j` for a string needle: key membership for a dict,
substring for a string, element equality for a list; a `TypeError` for the
remaining shapes. -/
def pyContains (j : Json) (needle : String) : Except Unit Bool :=
  match j with
  | .obj fields => .ok (fields.any (fun f => f.fst == needle))
  | .str s => .ok (subOccurs needle.data s.data)
  | .arr xs => .ok (xs.any (fun x => match x with | .str s => s == needle | _ => false))
  | _ => .error ()

/-- Python `j[key]` for a string key: dict lookup; everything else (or a
missing key) raises (`TypeError` / `KeyError`). -/
def pySubscript (j : Json) (key : String) : Except Unit Json :=
  match j with
  | .obj fields =>
    match lookupField fields key with
    | some v => .ok v
    | none => .error ()
  | _ => .error ()

/-- Python `s[:n]` on a string: the first `n` code points. -/
def pyTake (n : Nat) (s : String) : String := String.mk (s.data.take n)

/-- Transport-level exceptions of the requests call (src/app.py lines
106-113). -/
inductive TransportExn where
  | timeout
  | connectionFailed
  | sslFailed
  | requestFailed (msg : String)

/-- The HTTP response as observed by the function: status code, the result
of `response.json()` (`none` when parsing raises), the Content-Type header,
the raw text, and the X-Request-ID header. -/
structure HttpResponse where
  statusCode : Nat
  jsonBody : Option Json
  contentType : String
  bodyText : String
  requestId : Option String

/-- Outcome of one `requests.post` call. -/
inductive TransportOutcome where
  | exn (e : TransportExn)
  | resp (r : HttpResponse)

/-- The classified failures of one attempt, one constructor per `raise`
site of `call_deepseek_api`, carrying the diagnostic payloads the source
interpolates into its messages. -/
inductive ApiError where
  | emptyApiKey
  | malformedApiKey
  | emptyPrompt
  | promptTooLong (n : Nat)
  | timeoutError
  | connectionError
  | sslError
  | unknownNetworkError (msg : String)
  | jsonParseError (status : Nat) (excerpt : String) (nonJsonNote : Bool)
  | httpError (status : Nat) (reason : String) (details : Json) (requestId : String)
  | notADict
  | missingChoices
  | badChoices
  | missingMessage
  | missingContent
  | typeError
  | attrError
  | emptyContent
  | tooShort (n : Nat) (preview : String)
  | modelRefused (preview : String)

/-- Local input validation (src/app.py lines 77-84), in source order:
empty credential, credential not exactly 64 characters, empty prompt,
prompt longer than 4000 characters. `not s` on a Python string is the
emptiness test. -/
def validate (prompt api_key : String) : Option ApiError :=
  if api_key = "" then some .emptyApiKey
  else if api_key.length ≠ 64 then some .malformedApiKey
  else if prompt = "" then some .emptyPrompt
  else if prompt.length > 4000 then some (.promptTooLong prompt.length)
  else none

/-- Status-code reason table (src/app.py lines 126-132). -/
def statusReason (code : Nat) : String :=
  if code = 401 then "API密钥无效或过期"
  else if code = 403 then "权限不足，请检查API密钥权限"
  else if code = 429 then "请求频率超限，请稍后重试"
  else if code = 500 then "服务器内部错误"
  else if code = 503 then "服务不可用"
  else "未知API错误"

/-- First refusal marker. -/
def refusalA : List Char := "抱歉".data

/-- Second refusal marker. -/
def refusalB : List Char := "无法".data

/-- Content-policy checks on the extracted content (src/app.py lines
155-173): blank content, content shorter than 100 characters, refusal
markers; otherwise the content is returned unchanged. A non-string content
value would fail at `.strip()` (`AttributeError`). -/
def classifyContent : Json → Except ApiError String
  | .str content =>
    if (stripChars content.data).isEmpty then .error .emptyContent
    else if content.length < 100 then
      .error (.tooShort content.length (pyTake 200 content))
    else if subOccurs refusalA content.data || subOccurs refusalB content.data then
      .error (.modelRefused (pyTake 500 content))
    else .ok content
  | _ => .error .attrError

/-- Checks on the first choice (src/app.py lines 149-173): presence of the
message wrapper, presence of the content field, then content policy. -/
def processChoice (first_choice : Json) : Except ApiError String :=
  match pyContains first_choice ("message") with
  | .error _ => .error .typeError
  | .ok false => .error .missingMessage
  | .ok true =>
    match pySubscript first_choice ("message") with
    | .error _ => .error .typeError
    | .ok msg =>
      match pyContains msg ("content") with
      | .error _ => .error .typeError
      | .ok false => .error .missingContent
      | .ok true =>
        match pySubscript msg ("content") with
        | .error _ => .error .typeError
        | .ok content => classifyContent content

/-- Error raised for a non-200 status (src/app.py lines 125-139):
`response_data.get("error", {}).get("message", ...)` plus the status reason
and the request id; a non-dict parsed body (or a non-dict `error` value)
fails at `.get` with an AttributeError instead. -/
def statusError (code : Nat) (body : Json) (reqId : Option String) : ApiError :=
  match body with
  | .obj fields =>
    match (lookupField fields ("error")).getD (.obj []) with
    | .obj efields =>
      .httpError code (statusReason code)
        ((lookupField efields ("message")).getD (.str ("无错误详情")))
        (reqId.getD ("无"))
    | _ => .attrError
  | _ => .attrError

/-- Structure checks on a 200 response body (src/app.py lines 142-153):
the body must be a dict, `choices` must be present and a non-empty list;
processing continues with the first choice. -/
def processBody : Json → Except ApiError String
  | .obj fields =>
    match lookupField fields ("choices") with
    | none => .error .missingChoices
    | some choices =>
      match choices with
      | .arr (first_choice :: _) => processChoice first_choice
      | _ => .error .badChoices
  | _ => .error .notADict

/-- Response handling of one attempt after a successful transport
(src/app.py lines 116-173), in source order: JSON parse, HTTP status,
then the structure and content checks. -/
def processResponse (resp : HttpResponse) : Except ApiError String :=
  match resp.jsonBody with
  | none =>
    .error (.jsonParseError resp.statusCode (pyTake 200 resp.bodyText)
      (!subOccurs ("application/json").data resp.contentType.data))
  | some body =>
    if resp.statusCode ≠ 200 then
      .error (statusError resp.statusCode body resp.requestId)
    else processBody body

/-- Mapping of transport exceptions to the `ConnectionError`s the source
raises for them (src/app.py lines 106-113). -/
def transportError : TransportExn → ApiError
  | .timeout => .timeoutError
  | .connectionFailed => .connectionError
  | .sslFailed => .sslError
  | .requestFailed msg => .unknownNetworkError msg

/-- One attempt of the undecorated function body: validation first (before
any network request), then the transport call and response handling. The
boolean records whether a network request was issued during the attempt. -/
def call_attempt (prompt api_key : String) (t : TransportOutcome) :
    Except ApiError String × Bool :=
  match validate prompt api_key with
  | some e => (.error e, false)
  | none =>
    match t with
    | .exn e => (.error (transportError e), true)
    | .resp r => (processResponse r, true)

/-- Result of the decorated call: final outcome, number of attempts made,
and number of network requests issued. -/
structure CallResult where
  result : Except ApiError String
  attempts : Nat
  netCalls : Nat

/-- The tenacity retry loop: `retry(stop=stop_after_attempt(3), ...)` with
the default retry predicate, which retries on every exception. `ts i` is
the transport outcome attempt `i` would observe; the third argument is the
number of retries still allowed after the current attempt. After the last
allowed attempt the final exception is surfaced (tenacity wraps it in a
`RetryError`; the wrapped classification is what is modelled). -/
def runRetries (prompt api_key : String) (ts : Nat → TransportOutcome) :
    Nat → Nat → Nat → CallResult
  | i, net, 0 =>
    match call_attempt prompt api_key (ts i) with
    | (res, d) => ⟨res, i + 1, net + (if d then 1 else 0)⟩
  | i, net, r + 1 =>
    match call_attempt prompt api_key (ts i) with
    | (.ok s, d) => ⟨.ok s, i + 1, net + (if d then 1 else 0)⟩
    | (.error _, d) => runRetries prompt api_key ts (i + 1) (net + (if d then 1 else 0)) r

/-- The decorated `call_deepseek_api` (src/app.py lines 70-173): up to
3 total attempts. -/
def call_deepseek_api (prompt api_key : String) (ts : Nat → TransportOutcome) :
    CallResult :=
  runRetries prompt api_key ts 0 0 2

/-- Projection used to state faithfulness of the success value: the content
field of the first choice's message, exactly as present in the parsed
response body. -/
def extractedContent (resp : HttpResponse) : Option Json :=
  match resp.jsonBody with
  | some (.obj fields) =>
    match lookupField fields ("choices") with
    | some (.arr (first_choice :: _)) =>
      match first_choice with
      | .obj ffields =>
        match lookupField ffields ("message") with
        | some (.obj mfields) => lookupField mfields ("content")
        | _ => none
      | _ => none
    | _ => none
  | _ => none

-- ===============================================================
-- Concrete data used by witnesses and counterexamples
-- ===============================================================

/-- A well-formed 64-character credential. -/
def apiKey64 : String :=
  "0123456789abcdef0123456789abcdef0123456789abcdef0123456789abcdef"

/-- A generated content of 103 characters containing a refusal marker. -/
def refusalContent : String := "抱歉，" ++ String.mk (List.replicate 100 ('x'))

/-- A 200 response whose extracted content is `refusalContent`. -/
def refusalResponse : HttpResponse :=
  { statusCode := 200
    jsonBody := some (.obj [("choices",
      .arr [.obj [("message", .obj [("content", .str refusalContent)])]])])
    contentType := "application/json"
    bodyText := ""
    requestId := none }

/-- A generated content of 121 characters with leading whitespace and no
refusal marker. -/
def okContent : String := " " ++ String.mk (List.replicate 120 ('y'))

/-- A 200 response whose extracted content is `okContent`. -/
def okResponse : HttpResponse :=
  { statusCode := 200
    jsonBody := some (.obj [("choices",
      .arr [.obj [("message", .obj [("content", .str okContent)])]])])
    contentType := "application/json"
    bodyText := ""
    requestId := none }

/-- A transport that always times out (its outcomes are irrelevant to the
validation-failure claims). -/
def tsTimeout : Nat → TransportOutcome := fun _ => .exn .timeout

/-- A deterministic transport that always returns `refusalResponse`. -/
def tsRefusal : Nat → TransportOutcome := fun _ => .resp refusalResponse

/-- Markup containing all three labeled blocks. -/
def mdSample : List Char :=
  ("*职位描述：* 后端开发\n*硬技能：*\n- Python\n- Docker\n*简历关键词：*\n- 分布式\n").data

/-- Markup containing the job-description marker but no newline-star after
it. -/
def mdNoNewlineStar : List Char := ("*职位描述：* 后端开发岗位").data

/-- A JobSpec missing the job_desc field. -/
def jobMissingDesc : JobSpec :=
  { job_desc := none
    hard_skills := some [("Python").data]
    keywords := some [("Java").data] }

/-- A JobSpec with all three fields present. -/
def jobFull : JobSpec :=
  { job_desc := some (("后端开发").data)
    hard_skills := some [("Python").data, ("Docker").data]
    keywords := some [("分布式").data] }

/-- A base resume text. -/
def sampleResume : List Char := ("熟悉Python与分布式系统的应届硕士").data

/-- The prompt built from the sample resume and the full JobSpec. -/
def builtSample : List Char := (build_prompt sampleResume jobFull).getD []

/-- An extracted list entry is acceptable when it is non-empty and already
trimmed (stripping it changes nothing). -/
def entryOK (s : List Char) : Bool := !s.isEmpty && (stripChars s == s)

/-- A list-valued JobSpec field is populated with acceptable entries. -/
def entriesOK : Option (List (List Char)) → Bool
  | none => false
  | some l => l.all entryOK

-- ===============================================================
-- Helper lemmas: stripping
-- ===============================================================

theorem dropWhile_idem (p : Char → Bool) (l : List Char) :
    List.dropWhile p (List.dropWhile p l) = List.dropWhile p l := by
  induction l with
  | nil => rfl
  | cons c r ih =>
    by_cases h : p c = true
    · simp [List.dropWhile_cons, h, ih]
    · simp [List.dropWhile_cons, h]

theorem head?_dropWhile_false (p : Char → Bool) (l : List Char) (c : Char)
    (h : (List.dropWhile p l).head? = some c) : p c = false := by
  induction l with
  | nil => simp [List.dropWhile] at h
  | cons a r ih =>
    rw [List.dropWhile_cons] at h
    by_cases ha : p a = true
    · rw [if_pos ha] at h
      exact ih h
    · rw [if_neg ha] at h
      simp at h
      rw [← h]
      simpa using ha

theorem getLast?_dropWhile (p : Char → Bool) (l : List Char)
    (h : List.dropWhile p l ≠ []) : (List.dropWhile p l).getLast? = l.getLast? := by
  induction l with
  | nil => rfl
  | cons a r ih =>
    rw [List.dropWhile_cons] at h ⊢
    by_cases ha : p a = true
    · rw [if_pos ha] at h ⊢
      have hr : r ≠ [] := by
        intro hnil
        rw [hnil] at h
        simp [List.dropWhile] at h
      rw [ih h]
      cases r with
      | nil => exact absurd rfl hr
      | cons b t => exact (List.getLast?_cons_cons).symm
    · rw [if_neg ha]

theorem dropWhile_eq_self_of_head (p : Char → Bool) (l : List Char) (c : Char)
    (hc : l.head? = some c) (hpc : p c = false) : List.dropWhile p l = l := by
  cases l with
  | nil => rfl
  | cons a r =>
    simp at hc
    rw [List.dropWhile_cons, hc, if_neg (by simp [hpc])]

theorem stripChars_idem (l : List Char) : stripChars (stripChars l) = stripChars l := by
  cases ht : stripChars l with
  | nil => rfl
  | cons c t' =>
    have hwne : (List.dropWhile isPySpace (List.dropWhile isPySpace l).reverse) ≠ [] := by
      intro hnil
      rw [stripChars, hnil] at ht
      simp at ht
    have hune : List.dropWhile isPySpace l ≠ [] := by
      intro hnil
      apply hwne
      rw [hnil]
      rfl
    have hhead : (stripChars l).head? = some c := by rw [ht]; rfl
    have hlast :
        (List.dropWhile isPySpace (List.dropWhile isPySpace l).reverse).getLast? =
          (List.dropWhile isPySpace l).head? := by
      rw [getLast?_dropWhile isPySpace _ hwne, List.getLast?_reverse]
    have hheadrev : (stripChars l).head? =
        (List.dropWhile isPySpace (List.dropWhile isPySpace l).reverse).getLast? := by
      rw [stripChars, List.head?_reverse]
    have hpc : isPySpace c = false := by
      apply head?_dropWhile_false isPySpace l c
      rw [← hlast, ← hheadrev, hhead]
    have hfix : List.dropWhile isPySpace (stripChars l) = stripChars l :=
      dropWhile_eq_self_of_head isPySpace (stripChars l) c hhead hpc
    rw [← ht]
    show ((List.dropWhile isPySpace (stripChars l)).reverse.dropWhile isPySpace).reverse =
      stripChars l
    rw [hfix]
    rw [show (stripChars l).reverse =
      List.dropWhile isPySpace (List.dropWhile isPySpace l).reverse from by
        rw [stripChars, List.reverse_reverse]]
    rw [dropWhile_idem, stripChars]

-- ===============================================================
-- Helper lemmas: substring search and the description pattern
-- ===============================================================

theorem subOccurs_drop_false (nd l : List Char) (h : subOccurs nd l = false) :
    ∀ k, subOccurs nd (l.drop k) = false := by
  induction l with
  | nil => intro k; simpa [List.drop] using h
  | cons c r ih =>
    intro k
    cases k with
    | zero => simpa using h
    | succ k =>
      simp only [subOccurs, Bool.or_eq_false_iff] at h
      exact ih h.2 k

theorem findIdxAux_none (nd : List Char) :
    ∀ l, subOccurs nd l = false → ∀ i, findIdxAux nd l i = none := by
  intro l
  induction l with
  | nil =>
    intro h i
    simp only [subOccurs] at h
    simp [findIdxAux, h]
  | cons c r ih =>
    intro h i
    simp only [subOccurs, Bool.or_eq_false_iff] at h
    simp [findIdxAux, h.1, ih h.2]

theorem findFrom_none (nd l : List Char) (h : subOccurs nd l = false) (st : Nat) :
    findFrom nd l st = none := by
  unfold findFrom
  rw [findIdxAux_none nd _ (subOccurs_drop_false nd l h st) 0]
  rfl

theorem descBacktrack_none (s : List Char) (h : subOccurs nlStar s = false) :
    ∀ w, descBacktrack s w = none := by
  intro w
  induction w with
  | zero => simp [descBacktrack, findFrom_none nlStar s h 0]
  | succ w ih => simp [descBacktrack, findFrom_none nlStar s h (w + 1), ih]

theorem matchDescTail_none (s : List Char) (h : subOccurs nlStar s = false) :
    matchDescTail s = none :=
  descBacktrack_none s h _

theorem stripLit_eq (lit : List Char) :
    ∀ s t, stripLit lit s = some t → s = lit ++ t := by
  induction lit with
  | nil =>
    intro s t h
    simp only [stripLit] at h
    simpa using h
  | cons x xs ih =>
    intro s t h
    cases s with
    | nil => simp [stripLit] at h
    | cons y ys =>
      simp only [stripLit] at h
      by_cases hxy : x = y
      · rw [if_pos hxy] at h
        rw [← hxy, List.cons_append]
        rw [← ih ys t h]
      · rw [if_neg hxy] at h
        exact absurd h (by simp)

theorem stripLit_self (lit : List Char) : ∀ t, stripLit lit (lit ++ t) = some t := by
  induction lit with
  | nil => intro t; rfl
  | cons x xs ih => intro t; simp [stripLit, ih t]

theorem scanSearch_desc_none (l : List Char)
    (h : ∀ a b, l = a ++ litDesc ++ b → subOccurs nlStar b = false) :
    scanSearch litDesc matchDescTail l = none := by
  induction l with
  | nil => rfl
  | cons c rest ih =>
    have hrest : ∀ a b, rest = a ++ litDesc ++ b → subOccurs nlStar b = false := by
      intro a b hab
      exact h (c :: a) b (by rw [hab]; rfl)
    cases hs : stripLit litDesc (c :: rest) with
    | some tail =>
      have hlit : (c :: rest) = litDesc ++ tail := stripLit_eq litDesc _ _ hs
      have htail : subOccurs nlStar tail = false := h [] tail (by rw [hlit]; rfl)
      simp [scanSearch, hs, matchDescTail_none tail htail, ih hrest]
    | none => simp [scanSearch, hs, ih hrest]

theorem afterLit_decomp (lit : List Char) :
    ∀ l t, afterLit lit l = some t →
      ∀ a b, l = a ++ lit ++ b → ∃ k, b = t.drop k := by
  intro l
  induction l with
  | nil =>
    intro t h a b hab
    cases lit with
    | nil =>
      simp only [afterLit, stripLit] at h
      have ha : a = [] ∧ b = [] := by
        constructor
        · cases a with
          | nil => rfl
          | cons x a' => simp at hab
        · cases a with
          | nil => simpa using hab.symm
          | cons x a' => simp at hab
      refine ⟨0, ?_⟩
      rw [ha.2]
      rw [show t = [] from by simpa using h.symm]
      rfl
    | cons x xs => simp [afterLit, stripLit] at h
  | cons c rest ih =>
    intro t h a b hab
    cases h0 : stripLit lit (c :: rest) with
    | some t0 =>
      have ht : t = t0 := by
        simp only [afterLit, h0] at h
        exact (Option.some_inj.mp h).symm
      have hlit : (c :: rest) = lit ++ t0 := stripLit_eq lit _ _ h0
      refine ⟨a.length, ?_⟩
      have hbd : b = (c :: rest).drop (a.length + lit.length) := by
        rw [hab, List.append_assoc, ← List.drop_drop, List.drop_left, List.drop_left]
      have htd : t0 = (c :: rest).drop lit.length := by
        rw [hlit, List.drop_left]
      rw [ht, htd, List.drop_drop, Nat.add_comm lit.length a.length, ← hbd]
    | none =>
      have ht : afterLit lit rest = some t := by
        simpa only [afterLit, h0] using h
      cases a with
      | nil =>
        simp only [List.nil_append] at hab
        have hcontra : stripLit lit (c :: rest) = some b := by
          rw [hab]
          exact stripLit_self lit b
        rw [h0] at hcontra
        exact absurd hcontra (by simp)
      | cons x a' =>
        have hx : rest = a' ++ lit ++ b := by
          simpa using congrArg List.tail hab
        exact ih t ht a' b hx

-- ===============================================================
-- Helper lemmas: the retry loop
-- ===============================================================

theorem call_attempt_validate_fail (p k : String) (t : TransportOutcome) (e : ApiError)
    (he : validate p k = some e) : call_attempt p k t = (.error e, false) := by
  simp [call_attempt, he]

theorem runRetries_validate_fail (p k : String) (ts : Nat → TransportOutcome) (e : ApiError)
    (he : validate p k = some e) :
    ∀ r i net, runRetries p k ts i net r = ⟨.error e, i + r + 1, net⟩ := by
  intro r
  induction r with
  | zero =>
    intro i net
    simp [runRetries, call_attempt_validate_fail p k (ts i) e he]
  | succ r ih =>
    intro i net
    simp only [runRetries, call_attempt_validate_fail p k (ts i) e he]
    rw [show (net + if false = true then 1 else 0) = net from by simp]
    rw [ih (i + 1) net]
    congr 1
    omega

theorem validate_some_of (p k : String)
    (h : k = "" ∨ k.length ≠ 64 ∨ p = "" ∨ p.length > 4000) :
    ∃ e, validate p k = some e := by
  unfold validate
  split_ifs with h1 h2 h3 h4
  · exact ⟨_, rfl⟩
  · exact ⟨_, rfl⟩
  · exact ⟨_, rfl⟩
  · exact ⟨_, rfl⟩
  · exfalso
    rcases h with h | h | h | h
    · exact h1 h
    · exact h2 h
    · exact h3 h
    · exact h4 h

-- ===============================================================
-- Helper lemmas: response processing
-- ===============================================================

theorem classifyContent_ok (c : Json) (s : String)
    (h : classifyContent c = Except.ok s) : c = Json.str s := by
  cases c with
  | str content =>
    simp only [classifyContent] at h
    by_cases h1 : (stripChars content.data).isEmpty = true
    · simp [h1] at h
    · by_cases h2 : content.length < 100
      · simp [h1, h2] at h
      · by_cases h3 : (subOccurs refusalA content.data || subOccurs refusalB content.data) = true
        · simp [h1, h2, h3] at h
        · simp [h1, h2, h3] at h
          rw [h]
  | null => exact absurd h (by simp [classifyContent])
  | bool b => exact absurd h (by simp [classifyContent])
  | num n => exact absurd h (by simp [classifyContent])
  | arr xs => exact absurd h (by simp [classifyContent])
  | obj fs => exact absurd h (by simp [classifyContent])

theorem processChoice_ok (fc : Json) (s : String) (h : processChoice fc = Except.ok s) :
    ∃ ffields mfields, fc = Json.obj ffields ∧
      lookupField ffields ("message") = some (Json.obj mfields) ∧
      lookupField mfields ("content") = some (Json.str s) := by
  cases fc with
  | obj ffields =>
    simp only [processChoice, pyContains] at h
    cases hAny : ffields.any (fun f => f.fst == "message") with
    | false => rw [hAny] at h; exact absurd h (by simp)
    | true =>
      rw [hAny] at h
      simp only [pySubscript] at h
      cases hLook : lookupField ffields ("message") with
      | none => rw [hLook] at h; exact absurd h (by simp)
      | some msg =>
        rw [hLook] at h
        cases msg with
        | obj mfields =>
          simp only [pyContains] at h
          cases hAny2 : mfields.any (fun f => f.fst == "content") with
          | false => rw [hAny2] at h; exact absurd h (by simp)
          | true =>
            rw [hAny2] at h
            simp only [pySubscript] at h
            cases hLook2 : lookupField mfields ("content") with
            | none => rw [hLook2] at h; exact absurd h (by simp)
            | some content =>
              rw [hLook2] at h
              refine ⟨ffields, mfields, rfl, hLook, ?_⟩
              rw [← classifyContent_ok content s h]
              exact hLook2
        | str t =>
          simp only [pyContains] at h
          cases hSub : subOccurs ("content").data t.data with
          | false => rw [hSub] at h; exact absurd h (by simp)
          | true => rw [hSub] at h; exact absurd h (by simp)
        | arr xs =>
          simp only [pyContains] at h
          cases hAny2 : xs.any (fun x => match x with | .str s => s == "content" | _ => false) with
          | false => rw [hAny2] at h; exact absurd h (by simp)
          | true => rw [hAny2] at h; exact absurd h (by simp)
        | null => exact absurd h (by simp [pyContains])
        | bool b => exact absurd h (by simp [pyContains])
        | num n => exact absurd h (by simp [pyContains])
  | str t =>
    simp only [processChoice, pyContains] at h
    cases hSub : subOccurs ("message").data t.data with
    | false => rw [hSub] at h; exact absurd h (by simp)
    | true => rw [hSub] at h; exact absurd h (by simp [pySubscript])
  | arr xs =>
    simp only [processChoice, pyContains] at h
    cases hAny : xs.any (fun x => match x with | .str s => s == "message" | _ => false) with
    | false => rw [hAny] at h; exact absurd h (by simp)
    | true => rw [hAny] at h; exact absurd h (by simp [pySubscript])
  | null => exact absurd h (by simp [processChoice, pyContains])
  | bool b => exact absurd h (by simp [processChoice, pyContains])
  | num n => exact absurd h (by simp [processChoice, pyContains])

theorem processBody_ok (bd : Json) (s : String) (h : processBody bd = Except.ok s) :
    ∃ fields fc rest, bd = Json.obj fields ∧
      lookupField fields ("choices") = some (Json.arr (fc :: rest)) ∧
      processChoice fc = Except.ok s := by
  cases bd with
  | obj fields =>
    simp only [processBody] at h
    cases hch : lookupField fields ("choices") with
    | none => rw [hch] at h; simp at h
    | some choices =>
      rw [hch] at h
      cases choices with
      | arr xs =>
        cases xs with
        | nil => simp at h
        | cons fc rest =>
          refine ⟨fields, fc, rest, rfl, hch, ?_⟩
          simpa using h
      | null => simp at h
      | bool b => simp at h
      | num n => simp at h
      | str t => simp at h
      | obj fs2 => simp at h
  | null => simp [processBody] at h
  | bool b => simp [processBody] at h
  | num n => simp [processBody] at h
  | str t => simp [processBody] at h
  | arr xs => simp [processBody] at h

theorem filterMap_stripKeep_all (g : List Char) :
    ((splitDash g).filterMap stripKeep).all entryOK = true := by
  rw [List.all_eq_true]
  intro x hx
  obtain ⟨a, _, hfa⟩ := List.mem_filterMap.mp hx
  simp only [stripKeep] at hfa
  by_cases he : (stripChars a).isEmpty = true
  · simp [he] at hfa
  · simp only [he, if_false] at hfa
    simp at he
    have hfa2 : stripChars a = x := by simpa using hfa
    simp [entryOK, ← hfa2, stripChars_idem, he]

-- ===============================================================
-- Claims
-- ===============================================================

/-- C1: the claim states that a locally invalid input (here: an empty
credential) fails exactly once with its validation error and is never
retried. The code disagrees: the tenacity decorator around
`call_deepseek_api` retries every exception, so the same validation error
is raised on each of the 3 attempts and the failure is surfaced only after
the retry budget is exhausted — `attempts = 3`, not 1 (no network call is
ever issued, as each attempt fails during validation). -/
theorem validation_failure_retried_three_attempts :
    call_deepseek_api ("hi") ("") tsTimeout =
      ⟨Except.error ApiError.emptyApiKey, 3, 0⟩ := rfl

/-- C2 counterexample: the claim states that a template referencing a
variable absent from the RenderContext fails with a RenderError and
produces no document. With jinja2's default environment (what
`fill_latex_template` uses), a template consisting of a single print
placeholder for the absent variable `x` renders successfully, producing the
empty document: the undefined variable prints as empty text. -/
theorem render_missing_variable_succeeds :
    List.lookup ("x") ([] : List (String × String)) = none ∧
      renderTemplate [TmplNode.hole ("x")] [] = "" :=
  ⟨rfl, rfl⟩

/-- C2 amended: for a template of literal text and print placeholders, a
variable absent from the RenderContext does not make rendering fail; the
renderer behaves exactly as if the missing variable were bound to the empty
string (jinja2 default-undefined semantics), so each occurrence contributes
an empty segment to the rendered document. -/
theorem render_missing_variable_empty_substitution (nodes : List TmplNode)
    (ctx : List (String × String)) (n : String) (h : List.lookup n ctx = none) :
    renderTemplate nodes ctx = renderTemplate nodes ((n, ("")) :: ctx) := by
  unfold renderTemplate
  congr 1
  apply List.map_congr_left
  intro node _
  cases node with
  | lit s => rfl
  | hole m =>
    simp only [renderNode]
    cases hbeq : m == n with
    | true =>
      have hm : m = n := by simpa using hbeq
      rw [hm, h]
      simp [List.lookup]
    | false =>
      simp [List.lookup, hbeq]

/-- C2 amended, witness at a concrete template and context. -/
theorem render_missing_variable_empty_substitution_witness :
    List.lookup ("x") ([] : List (String × String)) = none ∧
      renderTemplate [TmplNode.hole ("x"), TmplNode.lit ("A")] [] =
        renderTemplate [TmplNode.hole ("x"), TmplNode.lit ("A")] [(("x"), (""))] :=
  ⟨rfl, render_missing_variable_empty_substitution _ _ _ rfl⟩

/-- C3 counterexample: the claim states the Prompt Builder succeeds for
every JobSpec, including those missing fields, with absent fields becoming
empty segments. On the code, `build_prompt` subscripts
`job_data['job_desc']` directly, so a JobSpec without `job_desc` fails
(KeyError) instead of producing a prompt. -/
theorem build_prompt_missing_field_fails :
    build_prompt sampleResume jobMissingDesc = none := rfl

/-- C3 amended: the Prompt Builder succeeds exactly when all three JobSpec
fields are present; a JobSpec missing any of job_desc, hard_skills or
keywords makes it fail (KeyError) rather than contribute an empty segment.
(An empty hard_skills or keywords list, by contrast, still joins to an
empty segment.) -/
theorem build_prompt_succeeds_iff_all_fields (r : List Char) (j : JobSpec) :
    (build_prompt r j).isSome = true ↔
      (j.job_desc.isSome = true ∧ j.hard_skills.isSome = true ∧
        j.keywords.isSome = true) := by
  rcases j with ⟨jd, hs, kw⟩
  cases jd <;> cases hs <;> cases kw <;> simp [build_prompt]

/-- C4: the claim states that a response whose content carries a refusal
marker fails with ModelRefused (with a content preview) after exactly one
attempt, never retried. The code disagrees on the retry part: the tenacity
decorator retries the refusal ValueError, so a deterministic transport
returning the refusal response is called 3 times (3 attempts, 3 network
requests) before the ModelRefused classification, with its 500-character
preview, is surfaced. -/
theorem refusal_failure_retried_three_attempts :
    call_deepseek_api ("hi") apiKey64 tsRefusal =
      ⟨Except.error (ApiError.modelRefused (pyTake 500 refusalContent)), 3, 3⟩ := rfl

/-- C5: for every credential that is empty or not exactly 64 characters,
and for every prompt that is empty or longer than 4000 characters, the
Model Client fails during local validation and no network request is ever
issued — on any of the (retried) attempts, whatever the transport would
answer. -/
theorem invalid_input_no_network_call (p k : String) (ts : Nat → TransportOutcome)
    (h : k = "" ∨ k.length ≠ 64 ∨ p = "" ∨ p.length > 4000) :
    (call_deepseek_api p k ts).netCalls = 0 ∧
      ∃ e, validate p k = some e ∧
        (call_deepseek_api p k ts).result = Except.error e := by
  obtain ⟨e, he⟩ := validate_some_of p k h
  have hrun := runRetries_validate_fail p k ts e he 2 0 0
  unfold call_deepseek_api
  rw [hrun]
  exact ⟨rfl, e, he, rfl⟩

/-- C5 witness at a concrete invalid input (empty credential). -/
theorem invalid_input_no_network_call_witness :
    (("" : String) = "" ∨ ("" : String).length ≠ 64 ∨ ("hi" : String) = "" ∨
        ("hi" : String).length > 4000) ∧
      ((call_deepseek_api ("hi") ("") tsTimeout).netCalls = 0 ∧
        ∃ e, validate ("hi") ("") = some e ∧
          (call_deepseek_api ("hi") ("") tsTimeout).result = Except.error e) :=
  ⟨Or.inl rfl, invalid_input_no_network_call ("hi") ("") tsTimeout (Or.inl rfl)⟩

/-- C6: for every markup input on which all three block patterns match, the
extractor returns a JobSpec with all three fields present, and the two
list-valued fields contain only non-empty, already-trimmed entries. -/
theorem parse_markdown_all_blocks_populated (md : List Char)
    (h1 : (searchDesc md).isSome = true) (h2 : (searchSkills md).isSome = true)
    (h3 : (searchKeywords md).isSome = true) :
    (parse_markdown md).job_desc.isSome = true ∧
      entriesOK (parse_markdown md).hard_skills = true ∧
      entriesOK (parse_markdown md).keywords = true := by
  obtain ⟨gd, hgd⟩ := Option.isSome_iff_exists.mp h1
  obtain ⟨gs, hgs⟩ := Option.isSome_iff_exists.mp h2
  obtain ⟨gk, hgk⟩ := Option.isSome_iff_exists.mp h3
  refine ⟨by simp [parse_markdown, hgd], ?_, ?_⟩
  · have hfield : (parse_markdown md).hard_skills =
        some ((splitDash gs).filterMap stripKeep) := by
      simp [parse_markdown, hgs]
    rw [hfield]
    show ((splitDash gs).filterMap stripKeep).all entryOK = true
    exact filterMap_stripKeep_all gs
  · have hfield : (parse_markdown md).keywords =
        some ((splitDash gk).filterMap stripKeep) := by
      simp [parse_markdown, hgk]
    rw [hfield]
    show ((splitDash gk).filterMap stripKeep).all entryOK = true
    exact filterMap_stripKeep_all gk

/-- C6 witness at a concrete markup document containing all three blocks. -/
theorem parse_markdown_all_blocks_populated_witness :
    (searchDesc mdSample).isSome = true ∧ (searchSkills mdSample).isSome = true ∧
      (searchKeywords mdSample).isSome = true ∧
      ((parse_markdown mdSample).job_desc.isSome = true ∧
        entriesOK (parse_markdown mdSample).hard_skills = true ∧
        entriesOK (parse_markdown mdSample).keywords = true) :=
  ⟨rfl, rfl, rfl, parse_markdown_all_blocks_populated mdSample rfl rfl rfl⟩

/-- C7: the Prompt Builder is deterministic — identical resume and JobSpec
inputs yield identical results. It is a pure function of its two arguments
(no ambient state), which the shallow embedding realizes as a Lean
function. -/
theorem build_prompt_deterministic (r1 r2 : List Char) (j1 j2 : JobSpec)
    (hr : r1 = r2) (hj : j1 = j2) : build_prompt r1 j1 = build_prompt r2 j2 := by
  rw [hr, hj]

/-- C7 witness at a concrete pair of inputs. -/
theorem build_prompt_deterministic_witness :
    sampleResume = sampleResume ∧ jobFull = jobFull ∧
      build_prompt sampleResume jobFull = build_prompt sampleResume jobFull :=
  ⟨rfl, rfl, build_prompt_deterministic sampleResume sampleResume jobFull jobFull rfl rfl⟩

/-- C8: if the job-description marker occurs in the input but the text
after its first occurrence contains no newline immediately followed by a
star, the description pattern cannot match anywhere, so the extractor
returns a JobSpec with `job_desc` absent (and, being a total function,
still succeeds). -/
theorem parse_markdown_desc_absent_without_newline_star (md : List Char)
    (h : ∃ t, afterLit litDesc md = some t ∧ subOccurs nlStar t = false) :
    (parse_markdown md).job_desc = none := by
  obtain ⟨t, hA, hS⟩ := h
  have hscan : scanSearch litDesc matchDescTail md = none := by
    apply scanSearch_desc_none
    intro a b hab
    obtain ⟨k, hk⟩ := afterLit_decomp litDesc md t hA a b hab
    rw [hk]
    exact subOccurs_drop_false nlStar t hS k
  simp [parse_markdown, searchDesc, hscan]

/-- C8 witness at a concrete input containing the marker but no
newline-star after it. -/
theorem parse_markdown_desc_absent_without_newline_star_witness :
    (∃ t, afterLit litDesc mdNoNewlineStar = some t ∧ subOccurs nlStar t = false) ∧
      (parse_markdown mdNoNewlineStar).job_desc = none :=
  ⟨⟨(" 后端开发岗位").data, rfl, rfl⟩,
    parse_markdown_desc_absent_without_newline_star mdNoNewlineStar
      ⟨(" 后端开发岗位").data, rfl, rfl⟩⟩

/-- C9: whenever the Model Client's response processing succeeds, the
returned string is the content field of the first choice's message exactly
as present in the parsed response — no trimming or other modification (the
strip is used only for the blankness test, so the success value may carry
leading or trailing whitespace). -/
theorem api_success_returns_content_verbatim (resp : HttpResponse) (s : String)
    (h : processResponse resp = Except.ok s) :
    extractedContent resp = some (Json.str s) := by
  rcases resp with ⟨code, jsonBody, ct, bodyText, reqId⟩
  cases jsonBody with
  | none => simp [processResponse] at h
  | some bd =>
    simp only [processResponse] at h
    by_cases hcode : code = 200
    · rw [if_neg (by simp [hcode])] at h
      obtain ⟨fields, fc, rest, hbd, hch, hpc⟩ := processBody_ok bd s h
      obtain ⟨ff, mf, hfc, hml, hcl⟩ := processChoice_ok fc s hpc
      subst hbd
      simp [extractedContent, hch, hfc, hml, hcl]
    · rw [if_pos hcode] at h
      simp at h

/-- C9 witness: a concrete successful response whose content carries a
leading space is returned exactly, whitespace included. -/
theorem api_success_returns_content_verbatim_witness :
    processResponse okResponse = Except.ok okContent ∧
      extractedContent okResponse = some (Json.str okContent) :=
  ⟨rfl, api_success_returns_content_verbatim okResponse okContent rfl⟩

/-- C10: whenever the Prompt Builder succeeds, the produced prompt contains
the full resume text verbatim as a contiguous segment (it is spliced
between two fixed scaffold pieces). -/
theorem prompt_contains_resume_verbatim (r : List Char) (j : JobSpec) (p : List Char)
    (h : build_prompt r j = some p) :
    ∃ pre post, p = pre ++ r ++ post := by
  rcases j with ⟨jd, hs, kw⟩
  cases jd with
  | none => simp [build_prompt] at h
  | some d =>
    cases hs with
    | none => simp [build_prompt] at h
    | some hsl =>
      cases kw with
      | none => simp [build_prompt] at h
      | some kwl =>
        simp only [build_prompt, Option.some_inj] at h
        refine ⟨promptPart0.data ++ d ++ promptPart1.data ++ joinComma hsl ++
          promptPart2.data ++ joinComma kwl ++ promptPart3.data, promptPart4.data, ?_⟩
        rw [← h]

/-- C10 witness at a concrete resume and JobSpec. -/
theorem prompt_contains_resume_verbatim_witness :
    build_prompt sampleResume jobFull = some builtSample ∧
      ∃ pre post, builtSample = pre ++ sampleResume ++ post :=
  ⟨rfl, prompt_contains_resume_verbatim sampleResume jobFull builtSample rfl⟩
